import Mathlib

/-!
Shallow embedding of the rain-alerts repository.

The snooze-enabled entry point (the handler with Redis snooze support) is
modelled as a pure function over an explicit world: the Redis key-value pair
per location ( the snooze expiry value and the resume-sent flag) becomes a
`Store`, each Redis operation opens its own client in the source so each one
gets an independent success flag in `StoreBehavior`, email delivery success
is a flag per notifier call, and the weather fetch result is an
`Option (List Rat)` of daily precipitation values in millimetres.
Floating-point numbers of the source are modelled as rationals; epoch-second
timestamps as naturals.  The run is reproduced as `snoozePhase` (the snooze
check and expiry resolution before the weather fetch) followed by
`evalPhase` (fetch, threshold comparison, alert email, tier selection and
snooze write), with a trace of the store operations attempted and the emails
actually delivered.  The plain entry point without snooze support is
modelled separately as `checkPrecipitationHandler`.
-/

/-- Value of the two Redis keys for one location: `snooze:<key>` parsed as an
integer expiry timestamp (absent when the key is unset), and whether
`snooze:resume_sent:<key>` holds the string "1". -/
structure Store where
  expiry : Option Nat
  resumeSent : Bool
  deriving DecidableEq, Repr

/-- Result shape of `getSnoozeState` in the source. -/
structure SnoozeState where
  isSnoozed : Bool
  expiresAt : Option Nat
  deriving DecidableEq, Repr

/-- Per-operation success of the underlying store: every helper in the source
opens its own Redis client, so each call can fail independently. -/
structure StoreBehavior where
  getOk : Bool
  setOk : Bool
  clearOk : Bool
  hasResumeOk : Bool
  markResumeOk : Bool
  deriving DecidableEq, Repr

/-- Snooze tier configuration: the five SNOOZE_* environment values. -/
structure SnoozeConfig where
  mediumMin : Rat
  mediumMax : Rat
  mediumWeeks : Nat
  highMin : Rat
  highWeeks : Nat
  deriving DecidableEq, Repr

/-- Configuration of one run: precipitation threshold in inches, tier table,
and whether a Redis URL is configured. -/
structure Config where
  threshold : Rat
  snooze : SnoozeConfig
  redisConfigured : Bool
  deriving DecidableEq, Repr

/-- The environment one run interacts with: current store contents, success
of each store operation, the current time in epoch seconds, delivery success
of the resume and alert emails, and the fetched daily precipitation values in
millimetres (`none` models every unusable-weather-data outcome). -/
structure World where
  store : Store
  behavior : StoreBehavior
  now : Nat
  resumeSendOk : Bool
  alertSendOk : Bool
  weather : Option (List Rat)
  deriving DecidableEq, Repr

/-- `getSnoozeState`: reads the expiry value; `isSnoozed` iff the expiry is
strictly in the future.  On any store error the catch block returns the
not-snoozed state, so the caller never sees a failure. -/
def getSnoozeState (ok : Bool) (st : Store) (now : Nat) : SnoozeState :=
  if ok then
    match st.expiry with
    | none => ⟨false, none⟩
    | some e => ⟨decide (now < e), some e⟩
  else ⟨false, none⟩

/-- Pure effect of a successful `setSnooze`: writes only the expiry key,
`now + weeks * 7*24*60*60`; the resume-sent key is not touched. -/
def setSnoozeStore (st : Store) (now weeks : Nat) : Store :=
  ⟨some (now + weeks * (7 * 24 * 60 * 60)), st.resumeSent⟩

/-- `setSnooze`: on store failure the catch block rethrows. -/
def setSnooze (ok : Bool) (st : Store) (now weeks : Nat) : Except Unit Store :=
  if ok then .ok (setSnoozeStore st now weeks) else .error ()

/-- `clearSnooze`: deletes both the expiry key and the resume-sent key; on
store failure the catch block rethrows. -/
def clearSnooze (ok : Bool) (st : Store) : Except Unit Store :=
  if ok then .ok ⟨none, false⟩ else .error ()

/-- `hasResumeEmailBeenSent`: reads the resume-sent key; on store failure the
catch block returns `false`. -/
def hasResumeEmailBeenSent (ok : Bool) (st : Store) : Bool :=
  if ok then st.resumeSent else false

/-- `markResumeEmailSent`: sets the resume-sent key to "1"; on store failure
the catch block swallows the error and leaves the store unchanged. -/
def markResumeEmailSent (ok : Bool) (st : Store) : Store :=
  if ok then ⟨st.expiry, true⟩ else st

/-- The two notification messages the run can deliver. -/
inductive Email where
  | resume
  | alert
  deriving DecidableEq, Repr

/-- Store operations, recorded when attempted (also when the attempt fails). -/
inductive StoreOp where
  | get
  | set
  | clear
  | hasResume
  | markResume
  deriving DecidableEq, Repr

/-- The two rainfall tiers of the snooze table. -/
inductive Tier where
  | high
  | medium
  deriving DecidableEq, Repr

/-- Tier selection of the handler, first match wins: the high check
`totalInches >= snoozeHighMin` is evaluated before the inclusive medium range
check `snoozeMediumMin <= totalInches <= snoozeMediumMax`. -/
def selectTier (cfg : SnoozeConfig) (total : Rat) : Option Tier :=
  if cfg.highMin ≤ total then some Tier.high
  else if cfg.mediumMin ≤ total ∧ total ≤ cfg.mediumMax then some Tier.medium
  else none

/-- Snooze duration in weeks of a tier. -/
def tierWeeks (cfg : SnoozeConfig) : Tier → Nat
  | Tier.high => cfg.highWeeks
  | Tier.medium => cfg.mediumWeeks

/-- Millimetres to inches, `totalPrecipitationMm / 25.4`. -/
def mmToInches (mm : Rat) : Rat :=
  mm / (254 / 10)

/-- JSON response of the run, with only the fields the claims are about:
the skip response carries the expiry, the alert response carries the
precipitation total, the threshold, `snoozed: snoozeWeeks !== null` and
`snoozeWeeks` itself. -/
inductive RunResult where
  | snoozedSkip (expiresAt : Nat)
  | internalError
  | dataUnavailable
  | alertSendFailed
  | alertSent (precipitation threshold : Rat) (snoozed : Bool) (snoozeWeeks : Option Nat)
  | noAlert (precipitation threshold : Rat)
  deriving DecidableEq, Repr

/-- Everything one run produces: the response, the final store contents, the
emails actually delivered, the store operations attempted, and whether the
weather API was invoked. -/
structure RunOutcome where
  result : RunResult
  store : Store
  emails : List Email
  ops : List StoreOp
  weatherFetched : Bool
  deriving DecidableEq, Repr

/-- Outcome of the snooze block that precedes the weather fetch. -/
inductive PhaseResult where
  | skip (expiresAt : Nat)
  | abort
  | proceed
  deriving DecidableEq, Repr

/-- State after the snooze block. -/
structure PhaseOut where
  phase : PhaseResult
  store : Store
  emails : List Email
  ops : List StoreOp
  deriving DecidableEq, Repr

/-- The expiry-resolution block of the handler: sends the resume email
unless the resume-sent flag reads as set, marks the flag only on successful
delivery, and then calls `clearSnooze` unconditionally — a `clearSnooze`
failure propagates to the outer catch block and aborts the run. -/
def resolveExpiry (w : World) : PhaseOut :=
  let sent := hasResumeEmailBeenSent w.behavior.hasResumeOk w.store
  let afterSend : Store × List Email × List StoreOp :=
    if sent then
      (w.store, [], [StoreOp.get, StoreOp.hasResume])
    else if w.resumeSendOk then
      (markResumeEmailSent w.behavior.markResumeOk w.store,
       [Email.resume],
       [StoreOp.get, StoreOp.hasResume, StoreOp.markResume])
    else
      (w.store, [], [StoreOp.get, StoreOp.hasResume])
  match clearSnooze w.behavior.clearOk afterSend.1 with
  | .ok st2 =>
    ⟨PhaseResult.proceed, st2, afterSend.2.1, afterSend.2.2 ++ [StoreOp.clear]⟩
  | .error _ =>
    ⟨PhaseResult.abort, afterSend.1, afterSend.2.1, afterSend.2.2 ++ [StoreOp.clear]⟩

/-- The snooze block as a whole. -/
def snoozePhase (cfg : Config) (w : World) : PhaseOut :=
  if cfg.redisConfigured then
    let s := getSnoozeState w.behavior.getOk w.store w.now
    if s.isSnoozed then
      ⟨PhaseResult.skip (s.expiresAt.getD 0), w.store, [], [StoreOp.get]⟩
    else
      match s.expiresAt with
      | some e =>
        if e ≠ 0 ∧ e ≤ w.now then resolveExpiry w
        else ⟨PhaseResult.proceed, w.store, [], [StoreOp.get]⟩
      | none => ⟨PhaseResult.proceed, w.store, [], [StoreOp.get]⟩
  else ⟨PhaseResult.proceed, w.store, [], []⟩

/-- The rest of the handler: fetch the weather, sum the daily millimetre
values, convert to inches, compare strictly against the threshold; on alert
send the alert email and, only when the send succeeded, a Redis URL is
configured and a tier matched, attempt `setSnooze` (its failure is caught
and the run continues); the alert response reports
`snoozed: snoozeWeeks !== null` whether or not the write succeeded. -/
def evalPhase (cfg : Config) (w : World) (st : Store) (em : List Email)
    (ops : List StoreOp) : RunOutcome :=
  match w.weather with
  | none => ⟨RunResult.dataUnavailable, st, em, ops, true⟩
  | some vs =>
    let total := mmToInches vs.sum
    if cfg.threshold < total then
      if w.alertSendOk then
        let weeks : Option Nat :=
          if cfg.redisConfigured then
            (selectTier cfg.snooze total).map (tierWeeks cfg.snooze)
          else none
        match weeks with
        | some wks =>
          let st2 :=
            match setSnooze w.behavior.setOk st w.now wks with
            | .ok stNew => stNew
            | .error _ => st
          ⟨RunResult.alertSent total cfg.threshold true (some wks), st2,
           em ++ [Email.alert], ops ++ [StoreOp.set], true⟩
        | none =>
          ⟨RunResult.alertSent total cfg.threshold false none, st,
           em ++ [Email.alert], ops, true⟩
      else ⟨RunResult.alertSendFailed, st, em, ops, true⟩
    else ⟨RunResult.noAlert total cfg.threshold, st, em, ops, true⟩

/-- The snooze-enabled handler: the snooze block, then — unless it returned
the snoozed response or raised — the precipitation check. -/
def handler (cfg : Config) (w : World) : RunOutcome :=
  match snoozePhase cfg w with
  | ⟨PhaseResult.skip e, st, em, ops⟩ =>
    ⟨RunResult.snoozedSkip e, st, em, ops, false⟩
  | ⟨PhaseResult.abort, st, em, ops⟩ =>
    ⟨RunResult.internalError, st, em, ops, false⟩
  | ⟨PhaseResult.proceed, st, em, ops⟩ => evalPhase cfg w st em ops

/-- Response of the plain handler without snooze support. -/
inductive PlainResult where
  | dataUnavailable
  | alertSendFailed
  | alertSent (precipitation threshold : Rat)
  | noAlert (precipitation threshold : Rat)
  deriving DecidableEq, Repr

/-- The plain handler of src/api/check-precipitation.ts: fetch, sum, convert
to inches, strict threshold comparison, alert email on exceedance. -/
def checkPrecipitationHandler (threshold : Rat) (weather : Option (List Rat))
    (alertSendOk : Bool) : PlainResult × List Email :=
  match weather with
  | none => (PlainResult.dataUnavailable, [])
  | some vs =>
    let total := mmToInches vs.sum
    if threshold < total then
      if alertSendOk then
        (PlainResult.alertSent total threshold, [Email.alert])
      else (PlainResult.alertSendFailed, [])
    else (PlainResult.noAlert total threshold, [])

/-- Forgets the snooze-only fields of a response, for comparison with the
plain handler. -/
def eraseSnoozeFields : RunResult → PlainResult
  | RunResult.snoozedSkip _ => PlainResult.dataUnavailable
  | RunResult.internalError => PlainResult.dataUnavailable
  | RunResult.dataUnavailable => PlainResult.dataUnavailable
  | RunResult.alertSendFailed => PlainResult.alertSendFailed
  | RunResult.alertSent p t _ _ => PlainResult.alertSent p t
  | RunResult.noAlert p t => PlainResult.noAlert p t

/-- Whether a response records that the alert decision was positive (the
alert email was attempted, successfully or not). -/
def alertFires : RunResult → Bool
  | RunResult.alertSent _ _ _ _ => true
  | RunResult.alertSendFailed => true
  | _ => false

/-- The default configuration of the source: threshold 0.5 in, medium band
[0.5, 1.0] in for 2 weeks, high band [1.0, ∞) in for 3 weeks. -/
def defaultSnoozeConfig : SnoozeConfig :=
  ⟨1 / 2, 1, 2, 1, 3⟩

/-- Behavior in which every store operation succeeds. -/
def allOk : StoreBehavior :=
  ⟨true, true, true, true, true⟩

/-- Default configuration with a Redis URL configured. -/
def cfgSnoozeOn : Config :=
  ⟨1 / 2, defaultSnoozeConfig, true⟩

/-- Default configuration without a Redis URL. -/
def cfgSnoozeOff : Config :=
  ⟨1 / 2, defaultSnoozeConfig, false⟩

/-- Absent snooze record. -/
def storeEmpty : Store :=
  ⟨none, false⟩

/-- A run facing an expired snooze record whose resume email delivery fails:
record expires at 100, current time 200, resume send fails, store healthy,
weather present with no rain. -/
def worldResumeFail : World :=
  ⟨⟨some 100, false⟩, allOk, 200, false, true, some []⟩

/-- A run with no prior record, medium-band rainfall (17.78 mm = 0.7 in),
successful alert delivery, but a failing snooze write. -/
def worldSetFail : World :=
  ⟨storeEmpty, ⟨true, false, true, true, true⟩, 1000, true, true, some [889 / 50]⟩

/-- A run with no prior record, medium-band rainfall, healthy store, but
failing alert delivery. -/
def worldAlertFail : World :=
  ⟨storeEmpty, allOk, 1000, true, false, some [889 / 50]⟩

/-- A run with rainfall of exactly 12.7 mm = 0.5 in, the default threshold. -/
def worldLowRain : World :=
  ⟨storeEmpty, allOk, 1000, true, true, some [127 / 10]⟩

/-- A run observing a record snoozed far into the future. -/
def worldSnoozed : World :=
  ⟨⟨some 101000, false⟩, allOk, 1000, true, true, some [889 / 50]⟩

/-- A run whose store read fails, with medium-band rainfall. -/
def worldGetFail : World :=
  ⟨⟨some 500, true⟩, ⟨false, true, true, true, true⟩, 1000, true, true, some [889 / 50]⟩

/-- The same run on an absent record with a healthy read: the state a
failed read is supposed to be equivalent to. -/
def failOpenWorld (w : World) : World :=
  { w with store := storeEmpty, behavior := { w.behavior with getOk := true } }

/-! Helper lemmas shared between the claim theorems. -/

/-- The expiry-resolution block attempts exactly the read of the resume
flag and the clear, with the mark in between exactly when the resume email
was delivered. -/
lemma resolveExpiry_ops_cases (w : World) :
    (resolveExpiry w).ops = [StoreOp.get, StoreOp.hasResume, StoreOp.clear] ∨
    (resolveExpiry w).ops =
      [StoreOp.get, StoreOp.hasResume, StoreOp.markResume, StoreOp.clear] := by
  unfold resolveExpiry clearSnooze
  cases h1 : hasResumeEmailBeenSent w.behavior.hasResumeOk w.store <;>
    cases h2 : w.resumeSendOk <;>
      cases h3 : w.behavior.clearOk <;>
        simp [h1, h2, h3]

/-- The expiry-resolution block delivers at most the resume email. -/
lemma resolveExpiry_emails_cases (w : World) :
    (resolveExpiry w).emails = [] ∨ (resolveExpiry w).emails = [Email.resume] := by
  unfold resolveExpiry clearSnooze
  cases h1 : hasResumeEmailBeenSent w.behavior.hasResumeOk w.store <;>
    cases h2 : w.resumeSendOk <;>
      cases h3 : w.behavior.clearOk <;>
        simp [h1, h2, h3]

/-- The possible operation traces of the snooze block. -/
lemma snoozePhase_ops_cases (cfg : Config) (w : World) :
    (snoozePhase cfg w).ops = [] ∨
    (snoozePhase cfg w).ops = [StoreOp.get] ∨
    (snoozePhase cfg w).ops = [StoreOp.get, StoreOp.hasResume, StoreOp.clear] ∨
    (snoozePhase cfg w).ops =
      [StoreOp.get, StoreOp.hasResume, StoreOp.markResume, StoreOp.clear] := by
  unfold snoozePhase
  split
  · dsimp only
    split
    · simp
    · split
      · split
        · rcases resolveExpiry_ops_cases w with h | h <;> simp [h]
        · simp
      · simp
  · simp

/-- The snooze block never attempts the snooze write. -/
lemma snoozePhase_no_set (cfg : Config) (w : World) :
    StoreOp.set ∉ (snoozePhase cfg w).ops := by
  rcases snoozePhase_ops_cases cfg w with h | h | h | h <;> simp [h]

/-- The possible email traces of the snooze block. -/
lemma snoozePhase_emails_cases (cfg : Config) (w : World) :
    (snoozePhase cfg w).emails = [] ∨
    (snoozePhase cfg w).emails = [Email.resume] := by
  unfold snoozePhase
  split
  · dsimp only
    split
    · simp
    · split
      · split
        · exact resolveExpiry_emails_cases w
        · simp
      · simp
  · simp

/-- The evaluation block delivers at most the alert email on top of the
emails already delivered. -/
lemma evalPhase_emails_cases (cfg : Config) (w : World) (st : Store)
    (em : List Email) (ops : List StoreOp) :
    (evalPhase cfg w st em ops).emails = em ∨
    (evalPhase cfg w st em ops).emails = em ++ [Email.alert] := by
  unfold evalPhase
  split
  · simp
  · dsimp only
    split
    · split
      · split <;> simp
      · simp
    · simp

/-- The evaluation block attempts at most the snooze write on top of the
operations already attempted. -/
lemma evalPhase_ops_cases (cfg : Config) (w : World) (st : Store)
    (em : List Email) (ops : List StoreOp) :
    (evalPhase cfg w st em ops).ops = ops ∨
    (evalPhase cfg w st em ops).ops = ops ++ [StoreOp.set] := by
  unfold evalPhase
  split
  · simp
  · dsimp only
    split
    · split
      · split <;> simp
      · simp
    · simp

/-- Without a Redis URL the snooze block does nothing. -/
lemma snoozePhase_noRedis (cfg : Config) (w : World)
    (h : cfg.redisConfigured = false) :
    snoozePhase cfg w = ⟨PhaseResult.proceed, w.store, [], []⟩ := by
  unfold snoozePhase
  simp [h]

/-- With an absent record the snooze block only performs the read. -/
lemma snoozePhase_absent (cfg : Config) (w : World)
    (hredis : cfg.redisConfigured = true)
    (hexp : w.store.expiry = none) :
    snoozePhase cfg w = ⟨PhaseResult.proceed, w.store, [], [StoreOp.get]⟩ := by
  unfold snoozePhase getSnoozeState
  cases hg : w.behavior.getOk <;> simp [hredis, hg, hexp]

/-- With a failing read the snooze block sees the absent state and proceeds. -/
lemma snoozePhase_getFail (cfg : Config) (w : World)
    (hredis : cfg.redisConfigured = true)
    (hget : w.behavior.getOk = false) :
    snoozePhase cfg w = ⟨PhaseResult.proceed, w.store, [], [StoreOp.get]⟩ := by
  unfold snoozePhase getSnoozeState
  simp [hredis, hget]

/-- With a future expiry the snooze block returns the snoozed response. -/
lemma snoozePhase_snoozed (cfg : Config) (w : World) (e : Nat)
    (hredis : cfg.redisConfigured = true)
    (hget : w.behavior.getOk = true)
    (hexp : w.store.expiry = some e)
    (hfut : w.now < e) :
    snoozePhase cfg w = ⟨PhaseResult.skip e, w.store, [], [StoreOp.get]⟩ := by
  unfold snoozePhase getSnoozeState
  simp [hredis, hget, hexp, hfut]

/-- With a truthy, lapsed expiry the snooze block runs expiry resolution. -/
lemma snoozePhase_expired (cfg : Config) (w : World) (e : Nat)
    (hredis : cfg.redisConfigured = true)
    (hget : w.behavior.getOk = true)
    (hexp : w.store.expiry = some e)
    (hne : e ≠ 0)
    (hpast : e ≤ w.now) :
    snoozePhase cfg w = resolveExpiry w := by
  unfold snoozePhase getSnoozeState
  have hnf : ¬ w.now < e := by omega
  simp [hredis, hget, hexp, hnf, hne, hpast]

/-- Expiry resolution when the flag reads unset, the resume send fails and
the clear succeeds: nothing is delivered, nothing is marked, the record is
cleared anyway and the run proceeds. -/
lemma resolveExpiry_sendFail (w : World)
    (hhas : w.behavior.hasResumeOk = true)
    (hflag : w.store.resumeSent = false)
    (hsend : w.resumeSendOk = false)
    (hclear : w.behavior.clearOk = true) :
    resolveExpiry w =
      ⟨PhaseResult.proceed, ⟨none, false⟩, [],
       [StoreOp.get, StoreOp.hasResume, StoreOp.clear]⟩ := by
  unfold resolveExpiry hasResumeEmailBeenSent clearSnooze
  simp [hhas, hflag, hsend, hclear]

/-- When the weather data is unusable the evaluation block reports it and
leaves everything else alone. -/
lemma evalPhase_weatherNone (cfg : Config) (w : World) (st : Store)
    (em : List Email) (ops : List StoreOp)
    (h : w.weather = none) :
    evalPhase cfg w st em ops = ⟨RunResult.dataUnavailable, st, em, ops, true⟩ := by
  unfold evalPhase
  simp [h]

/-- Below or at the threshold the evaluation block returns the no-alert
response and changes nothing. -/
lemma evalPhase_noAlert (cfg : Config) (w : World) (st : Store)
    (em : List Email) (ops : List StoreOp) (vs : List Rat)
    (hw : w.weather = some vs)
    (h : mmToInches vs.sum ≤ cfg.threshold) :
    evalPhase cfg w st em ops =
      ⟨RunResult.noAlert (mmToInches vs.sum) cfg.threshold, st, em, ops, true⟩ := by
  unfold evalPhase
  have hn : ¬ cfg.threshold < mmToInches vs.sum := not_lt.2 h
  simp [hw, hn]

/-- Above the threshold with a failing alert send the evaluation block
reports the delivery failure and changes nothing. -/
lemma evalPhase_alertSendFail (cfg : Config) (w : World) (st : Store)
    (em : List Email) (ops : List StoreOp) (vs : List Rat)
    (hw : w.weather = some vs)
    (hthr : cfg.threshold < mmToInches vs.sum)
    (hsend : w.alertSendOk = false) :
    evalPhase cfg w st em ops = ⟨RunResult.alertSendFailed, st, em, ops, true⟩ := by
  unfold evalPhase
  simp [hw, hthr, hsend]

/-- Above the threshold, alert delivered, Redis configured and a tier
matched: the snooze write is attempted, and the response reports snoozed
with the tier duration whether or not the write succeeded. -/
lemma evalPhase_alertTier (cfg : Config) (w : World) (st : Store)
    (em : List Email) (ops : List StoreOp) (vs : List Rat) (t : Tier)
    (hw : w.weather = some vs)
    (hthr : cfg.threshold < mmToInches vs.sum)
    (hsend : w.alertSendOk = true)
    (hredis : cfg.redisConfigured = true)
    (htier : selectTier cfg.snooze (mmToInches vs.sum) = some t) :
    evalPhase cfg w st em ops =
      ⟨RunResult.alertSent (mmToInches vs.sum) cfg.threshold true
          (some (tierWeeks cfg.snooze t)),
       if w.behavior.setOk then setSnoozeStore st w.now (tierWeeks cfg.snooze t) else st,
       em ++ [Email.alert], ops ++ [StoreOp.set], true⟩ := by
  unfold evalPhase setSnooze
  cases hset : w.behavior.setOk <;>
    simp [hw, hthr, hsend, hredis, htier, hset]

/-- Above the threshold, alert delivered, but no tier applicable (no Redis
URL or total outside every band): no snooze write is attempted and the
response reports not snoozed. -/
lemma evalPhase_alertNoTier (cfg : Config) (w : World) (st : Store)
    (em : List Email) (ops : List StoreOp) (vs : List Rat)
    (hw : w.weather = some vs)
    (hthr : cfg.threshold < mmToInches vs.sum)
    (hsend : w.alertSendOk = true)
    (hnone : cfg.redisConfigured = false ∨
      selectTier cfg.snooze (mmToInches vs.sum) = none) :
    evalPhase cfg w st em ops =
      ⟨RunResult.alertSent (mmToInches vs.sum) cfg.threshold false none,
       st, em ++ [Email.alert], ops, true⟩ := by
  unfold evalPhase
  rcases hnone with h | h <;> simp [hw, hthr, hsend, h]

/-- Claim C2, counterexample: on a prior record whose resume-sent flag is
true, `setSnooze` leaves the flag true — it does not write the flag to
false as the claim states. -/
theorem c2_resume_flag_not_reset_cex :
    setSnooze true ⟨some 50, true⟩ 100 2 =
      Except.ok (setSnoozeStore ⟨some 50, true⟩ 100 2) ∧
    (setSnoozeStore ⟨some 50, true⟩ 100 2).resumeSent ≠ false :=
  ⟨rfl, by decide⟩

/-- Claim C2 as amended: for every prior snooze record, `setSnooze`
overwrites the expiry to now + weeks * 604800 seconds, restarting the
cooldown window, but leaves the resume-sent flag unchanged rather than
resetting it to false. -/
theorem c2_setSnooze_overwrites_expiry_keeps_flag (st : Store) (now weeks : Nat) :
    setSnooze true st now weeks =
      Except.ok ⟨some (now + weeks * 604800), st.resumeSent⟩ := by
  unfold setSnooze setSnoozeStore
  norm_num

/-- Claim C4: when the high-band lower bound equals the medium-band upper
bound, a total exactly at that boundary selects the high tier and never the
medium tier, because the high check is evaluated first; any total at or
above the high bound selects high, and no total selects two tiers. -/
theorem c4_boundary_resolves_high (cfg : SnoozeConfig)
    (hb : cfg.highMin = cfg.mediumMax) :
    selectTier cfg cfg.highMin = some Tier.high ∧
    (∀ u : Rat, cfg.highMin ≤ u → selectTier cfg u = some Tier.high) ∧
    (∀ u : Rat, ¬(selectTier cfg u = some Tier.high ∧
        selectTier cfg u = some Tier.medium)) := by
  refine ⟨?_, ?_, ?_⟩
  · unfold selectTier
    simp
  · intro u hu
    unfold selectTier
    simp [hu]
  · intro u h
    have hcontra := h.1.symm.trans h.2
    simp at hcontra

/-- Witness for C4 at the default configuration, where the shared boundary
is 1.0 inches. -/
theorem c4_boundary_resolves_high_witness :
    selectTier defaultSnoozeConfig 1 = some Tier.high :=
  (c4_boundary_resolves_high defaultSnoozeConfig (by decide)).2.1 1 (by decide)

/-- Claim C5: the alert decision is strict — the alert fires iff the total
exceeds the threshold; at or below the threshold the evaluation returns the
no-alert response regardless of the tier configuration, sends nothing and
touches nothing. -/
theorem c5_alert_strict_iff (cfg : Config) (w : World) (vs : List Rat)
    (hvs : w.weather = some vs) :
    (alertFires (evalPhase cfg w w.store [] []).result = true ↔
      cfg.threshold < mmToInches vs.sum) ∧
    (mmToInches vs.sum ≤ cfg.threshold →
      (evalPhase cfg w w.store [] []).result =
        RunResult.noAlert (mmToInches vs.sum) cfg.threshold ∧
      (evalPhase cfg w w.store [] []).emails = [] ∧
      (evalPhase cfg w w.store [] []).store = w.store) := by
  constructor
  · constructor
    · intro hfired
      by_contra hn
      rw [evalPhase_noAlert cfg w w.store [] [] vs hvs (not_lt.1 hn)] at hfired
      simp [alertFires] at hfired
    · intro hthr
      cases hsend : w.alertSendOk with
      | false =>
        rw [evalPhase_alertSendFail cfg w w.store [] [] vs hvs hthr hsend]
        simp [alertFires]
      | true =>
        by_cases hr : cfg.redisConfigured = true
        · cases htier : selectTier cfg.snooze (mmToInches vs.sum) with
          | none =>
            rw [evalPhase_alertNoTier cfg w w.store [] [] vs hvs hthr hsend
              (Or.inr htier)]
            simp [alertFires]
          | some t =>
            rw [evalPhase_alertTier cfg w w.store [] [] vs t hvs hthr hsend hr htier]
            simp [alertFires]
        · rw [evalPhase_alertNoTier cfg w w.store [] [] vs hvs hthr hsend
            (Or.inl (by simpa using hr))]
          simp [alertFires]
  · intro hle
    rw [evalPhase_noAlert cfg w w.store [] [] vs hvs hle]
    exact ⟨rfl, rfl, rfl⟩

/-- Witness for C5: exactly 12.7 mm = 0.5 inches at the default threshold
0.5 does not alert. -/
theorem c5_alert_strict_iff_witness :
    (evalPhase cfgSnoozeOn worldLowRain worldLowRain.store [] []).result =
      RunResult.noAlert (mmToInches ([127 / 10] : List Rat).sum)
        cfgSnoozeOn.threshold ∧
    (evalPhase cfgSnoozeOn worldLowRain worldLowRain.store [] []).emails = [] ∧
    (evalPhase cfgSnoozeOn worldLowRain worldLowRain.store [] []).store =
      worldLowRain.store :=
  (c5_alert_strict_iff cfgSnoozeOn worldLowRain [127 / 10] rfl).2
    (by norm_num [mmToInches, cfgSnoozeOn])

/-- Claim C6: a successful `setSnooze` followed immediately by a read of the
snooze state at the same time yields the snoozed state with expiry exactly
now + weeks * 604800 seconds, for every positive number of weeks. -/
theorem c6_snooze_status_roundtrip (st : Store) (now weeks : Nat)
    (h : 0 < weeks) :
    setSnooze true st now weeks = Except.ok (setSnoozeStore st now weeks) ∧
    getSnoozeState true (setSnoozeStore st now weeks) now =
      ⟨true, some (now + weeks * 604800)⟩ := by
  refine ⟨rfl, ?_⟩
  unfold getSnoozeState setSnoozeStore
  have hlt : now < now + weeks * (7 * 24 * 60 * 60) := by
    have hpos := Nat.mul_pos h (show 0 < 7 * 24 * 60 * 60 by norm_num)
    omega
  simp [hlt]

/-- Witness for C6 with the default medium duration of 2 weeks. -/
theorem c6_snooze_status_roundtrip_witness :
    getSnoozeState true (setSnoozeStore storeEmpty 0 2) 0 =
      ⟨true, some (0 + 2 * 604800)⟩ :=
  (c6_snooze_status_roundtrip storeEmpty 0 2 (by decide)).2

/-- The evaluation block either leaves the store alone or performs exactly
a successful snooze write on it. -/
lemma evalPhase_store_cases (cfg : Config) (w : World) (st : Store)
    (em : List Email) (ops : List StoreOp) :
    (evalPhase cfg w st em ops).store = st ∨
    ∃ wks, (evalPhase cfg w st em ops).store = setSnoozeStore st w.now wks := by
  cases hw : w.weather with
  | none =>
    rw [evalPhase_weatherNone cfg w st em ops hw]
    exact Or.inl rfl
  | some vs =>
    by_cases hthr : cfg.threshold < mmToInches vs.sum
    · cases hsend : w.alertSendOk with
      | false =>
        rw [evalPhase_alertSendFail cfg w st em ops vs hw hthr hsend]
        exact Or.inl rfl
      | true =>
        by_cases hr : cfg.redisConfigured = true
        · cases htier : selectTier cfg.snooze (mmToInches vs.sum) with
          | none =>
            rw [evalPhase_alertNoTier cfg w st em ops vs hw hthr hsend (Or.inr htier)]
            exact Or.inl rfl
          | some t =>
            rw [evalPhase_alertTier cfg w st em ops vs t hw hthr hsend hr htier]
            cases hset : w.behavior.setOk with
            | false => exact Or.inl (by simp [hset])
            | true => exact Or.inr ⟨tierWeeks cfg.snooze t, by simp [hset]⟩
        · rw [evalPhase_alertNoTier cfg w st em ops vs hw hthr hsend
            (Or.inl (by simpa using hr))]
          exact Or.inl rfl
    · rw [evalPhase_noAlert cfg w st em ops vs hw (not_lt.1 hthr)]
      exact Or.inl rfl

/-- Claim C1, counterexample: with an expired record, an unset resume flag
and a failing resume delivery, the run clears the record anyway — the store
no longer holds the old expiry, no resume email was delivered, and nothing
was marked sent, so the notice is not retried on a later run but lost. -/
theorem c1_record_not_left_expiring_cex :
    (handler cfgSnoozeOn worldResumeFail).store.expiry ≠ some 100 ∧
    (handler cfgSnoozeOn worldResumeFail).store = ⟨none, false⟩ ∧
    Email.resume ∉ (handler cfgSnoozeOn worldResumeFail).emails := by
  have hh : handler cfgSnoozeOn worldResumeFail =
      evalPhase cfgSnoozeOn worldResumeFail ⟨none, false⟩ []
        [StoreOp.get, StoreOp.hasResume, StoreOp.clear] := by
    unfold handler
    rw [snoozePhase_expired cfgSnoozeOn worldResumeFail 100 rfl rfl rfl
          (by decide) (by decide),
        resolveExpiry_sendFail worldResumeFail rfl rfl rfl rfl]
  rw [hh, evalPhase_noAlert cfgSnoozeOn worldResumeFail ⟨none, false⟩ []
    [StoreOp.get, StoreOp.hasResume, StoreOp.clear] [] rfl
    (by norm_num [mmToInches, cfgSnoozeOn])]
  exact ⟨by simp, rfl, by simp⟩

/-- Claim C1 as amended: if delivery of the resume notification fails during
expiry resolution, the run does not mark the resume notice as sent, but it
still clears the snooze record unconditionally before proceeding, so the
record no longer shows the lapsed expiry and the resume notice is not
retried on the next run — on this path the notice can be lost, not
duplicated. -/
theorem c1_resume_failure_not_retried (cfg : Config) (w : World) (e : Nat)
    (hredis : cfg.redisConfigured = true)
    (hget : w.behavior.getOk = true)
    (hhas : w.behavior.hasResumeOk = true)
    (hclear : w.behavior.clearOk = true)
    (hexp : w.store.expiry = some e)
    (hne : e ≠ 0)
    (hpast : e ≤ w.now)
    (hflag : w.store.resumeSent = false)
    (hsend : w.resumeSendOk = false) :
    snoozePhase cfg w =
      ⟨PhaseResult.proceed, ⟨none, false⟩, [],
       [StoreOp.get, StoreOp.hasResume, StoreOp.clear]⟩ ∧
    Email.resume ∉ (handler cfg w).emails ∧
    StoreOp.markResume ∉ (handler cfg w).ops ∧
    (handler cfg w).store.resumeSent = false := by
  have hsp : snoozePhase cfg w =
      ⟨PhaseResult.proceed, ⟨none, false⟩, [],
       [StoreOp.get, StoreOp.hasResume, StoreOp.clear]⟩ := by
    rw [snoozePhase_expired cfg w e hredis hget hexp hne hpast,
        resolveExpiry_sendFail w hhas hflag hsend hclear]
  have hh : handler cfg w =
      evalPhase cfg w ⟨none, false⟩ []
        [StoreOp.get, StoreOp.hasResume, StoreOp.clear] := by
    unfold handler
    rw [hsp]
  refine ⟨hsp, ?_, ?_, ?_⟩
  · rw [hh]
    rcases evalPhase_emails_cases cfg w ⟨none, false⟩ []
      [StoreOp.get, StoreOp.hasResume, StoreOp.clear] with h | h <;> simp [h]
  · rw [hh]
    rcases evalPhase_ops_cases cfg w ⟨none, false⟩ []
      [StoreOp.get, StoreOp.hasResume, StoreOp.clear] with h | h <;> simp [h]
  · rw [hh]
    rcases evalPhase_store_cases cfg w ⟨none, false⟩ []
      [StoreOp.get, StoreOp.hasResume, StoreOp.clear] with h | ⟨wks, h⟩ <;>
      simp [h, setSnoozeStore]

/-- Witness for the amended C1 at the concrete failing run. -/
theorem c1_resume_failure_not_retried_witness :
    snoozePhase cfgSnoozeOn worldResumeFail =
      ⟨PhaseResult.proceed, ⟨none, false⟩, [],
       [StoreOp.get, StoreOp.hasResume, StoreOp.clear]⟩ ∧
    Email.resume ∉ (handler cfgSnoozeOn worldResumeFail).emails ∧
    StoreOp.markResume ∉ (handler cfgSnoozeOn worldResumeFail).ops ∧
    (handler cfgSnoozeOn worldResumeFail).store.resumeSent = false :=
  c1_resume_failure_not_retried cfgSnoozeOn worldResumeFail 100 rfl rfl rfl rfl rfl
    (by decide) (by decide) rfl rfl

/-- Claim C3, counterexample: with a failing snooze write after a delivered
alert, the run does not abort, but the response still reports snoozed with
the tier duration — the write failure is not reported in the result, and
the store shows the write did not happen. -/
theorem c3_reports_snoozed_despite_failed_write_cex :
    (handler cfgSnoozeOn worldSetFail).result =
      RunResult.alertSent (7 / 10) (1 / 2) true (some 2) ∧
    (handler cfgSnoozeOn worldSetFail).store = storeEmpty ∧
    Email.alert ∈ (handler cfgSnoozeOn worldSetFail).emails := by
  have hh : handler cfgSnoozeOn worldSetFail =
      evalPhase cfgSnoozeOn worldSetFail storeEmpty [] [StoreOp.get] := by
    unfold handler
    rw [snoozePhase_absent cfgSnoozeOn worldSetFail rfl rfl]
    rfl
  have htier : selectTier cfgSnoozeOn.snooze
      (mmToInches ([889 / 50] : List Rat).sum) = some Tier.medium := by
    norm_num [selectTier, mmToInches, cfgSnoozeOn, defaultSnoozeConfig]
  rw [hh, evalPhase_alertTier cfgSnoozeOn worldSetFail storeEmpty [] [StoreOp.get]
    [889 / 50] Tier.medium rfl (by norm_num [mmToInches, cfgSnoozeOn]) rfl rfl htier]
  refine ⟨?_, ?_, by simp⟩
  · norm_num [mmToInches, cfgSnoozeOn, defaultSnoozeConfig, tierWeeks]
  · simp [show worldSetFail.behavior.setOk = false from rfl]

/-- Claim C3 as amended: when the snooze write fails after the alert
notification has been delivered, the run does not abort and the alert is
never swallowed — the run still returns the alert response with the alert
email delivered and the store unchanged — but the failure is only logged,
not reported in the result: the response still claims snoozed with the
matched tier duration. -/
theorem c3_set_failure_degrades (cfg : Config) (w : World) (vs : List Rat) (t : Tier)
    (hredis : cfg.redisConfigured = true)
    (hexp : w.store.expiry = none)
    (hset : w.behavior.setOk = false)
    (hsend : w.alertSendOk = true)
    (hw : w.weather = some vs)
    (hthr : cfg.threshold < mmToInches vs.sum)
    (htier : selectTier cfg.snooze (mmToInches vs.sum) = some t) :
    (handler cfg w).result =
      RunResult.alertSent (mmToInches vs.sum) cfg.threshold true
        (some (tierWeeks cfg.snooze t)) ∧
    Email.alert ∈ (handler cfg w).emails ∧
    (handler cfg w).store = w.store := by
  have hh : handler cfg w = evalPhase cfg w w.store [] [StoreOp.get] := by
    unfold handler
    rw [snoozePhase_absent cfg w hredis hexp]
  rw [hh, evalPhase_alertTier cfg w w.store [] [StoreOp.get] vs t hw hthr hsend
    hredis htier]
  exact ⟨rfl, by simp, by simp [hset]⟩

/-- Witness for the amended C3 at the concrete failing run. -/
theorem c3_set_failure_degrades_witness :
    (handler cfgSnoozeOn worldSetFail).result =
      RunResult.alertSent (mmToInches ([889 / 50] : List Rat).sum)
        cfgSnoozeOn.threshold true
        (some (tierWeeks cfgSnoozeOn.snooze Tier.medium)) ∧
    Email.alert ∈ (handler cfgSnoozeOn worldSetFail).emails ∧
    (handler cfgSnoozeOn worldSetFail).store = worldSetFail.store :=
  c3_set_failure_degrades cfgSnoozeOn worldSetFail [889 / 50] Tier.medium
    rfl rfl rfl rfl rfl
    (by norm_num [mmToInches, cfgSnoozeOn])
    (by norm_num [selectTier, mmToInches, cfgSnoozeOn, defaultSnoozeConfig])

/-- The evaluation block always marks the weather API as invoked. -/
lemma evalPhase_weatherFetched (cfg : Config) (w : World) (st : Store)
    (em : List Email) (ops : List StoreOp) :
    (evalPhase cfg w st em ops).weatherFetched = true := by
  unfold evalPhase
  split
  · rfl
  · dsimp only
    split
    · split
      · split <;> rfl
      · rfl
    · rfl

/-- The response, emails, operations and fetch flag of the evaluation block
do not depend on the store contents it starts from, only on the weather and
the alert delivery outcome. -/
lemma evalPhase_congr (cfg : Config) (w1 w2 : World) (st1 st2 : Store)
    (em : List Email) (ops : List StoreOp)
    (hw : w1.weather = w2.weather)
    (ha : w1.alertSendOk = w2.alertSendOk) :
    (evalPhase cfg w1 st1 em ops).result = (evalPhase cfg w2 st2 em ops).result ∧
    (evalPhase cfg w1 st1 em ops).emails = (evalPhase cfg w2 st2 em ops).emails ∧
    (evalPhase cfg w1 st1 em ops).ops = (evalPhase cfg w2 st2 em ops).ops := by
  cases hw2 : w2.weather with
  | none =>
    rw [evalPhase_weatherNone cfg w1 st1 em ops (hw.trans hw2),
        evalPhase_weatherNone cfg w2 st2 em ops hw2]
    exact ⟨rfl, rfl, rfl⟩
  | some vs =>
    have hw1 : w1.weather = some vs := hw.trans hw2
    by_cases hthr : cfg.threshold < mmToInches vs.sum
    · cases hsend : w2.alertSendOk with
      | false =>
        rw [evalPhase_alertSendFail cfg w1 st1 em ops vs hw1 hthr (ha.trans hsend),
            evalPhase_alertSendFail cfg w2 st2 em ops vs hw2 hthr hsend]
        exact ⟨rfl, rfl, rfl⟩
      | true =>
        have hs1 : w1.alertSendOk = true := ha.trans hsend
        by_cases hr : cfg.redisConfigured = true
        · cases htier : selectTier cfg.snooze (mmToInches vs.sum) with
          | none =>
            rw [evalPhase_alertNoTier cfg w1 st1 em ops vs hw1 hthr hs1 (Or.inr htier),
                evalPhase_alertNoTier cfg w2 st2 em ops vs hw2 hthr hsend (Or.inr htier)]
            exact ⟨rfl, rfl, rfl⟩
          | some t =>
            rw [evalPhase_alertTier cfg w1 st1 em ops vs t hw1 hthr hs1 hr htier,
                evalPhase_alertTier cfg w2 st2 em ops vs t hw2 hthr hsend hr htier]
            exact ⟨rfl, rfl, rfl⟩
        · have hrf : cfg.redisConfigured = false := by simpa using hr
          rw [evalPhase_alertNoTier cfg w1 st1 em ops vs hw1 hthr hs1 (Or.inl hrf),
              evalPhase_alertNoTier cfg w2 st2 em ops vs hw2 hthr hsend (Or.inl hrf)]
          exact ⟨rfl, rfl, rfl⟩
    · rw [evalPhase_noAlert cfg w1 st1 em ops vs hw1 (not_lt.1 hthr),
          evalPhase_noAlert cfg w2 st2 em ops vs hw2 (not_lt.1 hthr)]
      exact ⟨rfl, rfl, rfl⟩

/-- The snooze write is attempted only when the alert email was delivered,
a Redis URL is configured, usable weather data exceeded the threshold and a
tier matched. -/
lemma handler_set_requires (cfg : Config) (w : World)
    (h : StoreOp.set ∈ (handler cfg w).ops) :
    w.alertSendOk = true ∧ cfg.redisConfigured = true ∧
    ∃ vs, w.weather = some vs ∧ cfg.threshold < mmToInches vs.sum ∧
      selectTier cfg.snooze (mmToInches vs.sum) ≠ none := by
  unfold handler at h
  cases hsp : snoozePhase cfg w with
  | mk ph st em ops =>
    rw [hsp] at h
    have hnos : StoreOp.set ∉ ops := by
      have hn := snoozePhase_no_set cfg w
      rw [hsp] at hn
      exact hn
    cases ph with
    | skip e => exact absurd (by simpa using h) hnos
    | abort => exact absurd (by simpa using h) hnos
    | proceed =>
      dsimp only at h
      cases hw : w.weather with
      | none =>
        rw [evalPhase_weatherNone cfg w st em ops hw] at h
        exact absurd (by simpa using h) hnos
      | some vs =>
        by_cases hthr : cfg.threshold < mmToInches vs.sum
        · cases hsend : w.alertSendOk with
          | false =>
            rw [evalPhase_alertSendFail cfg w st em ops vs hw hthr hsend] at h
            exact absurd (by simpa using h) hnos
          | true =>
            by_cases hr : cfg.redisConfigured = true
            · cases htier : selectTier cfg.snooze (mmToInches vs.sum) with
              | none =>
                rw [evalPhase_alertNoTier cfg w st em ops vs hw hthr hsend
                  (Or.inr htier)] at h
                exact absurd (by simpa using h) hnos
              | some t =>
                exact ⟨rfl, hr, vs, rfl, hthr, by simp [htier]⟩
            · have hrf : cfg.redisConfigured = false := by simpa using hr
              rw [evalPhase_alertNoTier cfg w st em ops vs hw hthr hsend
                (Or.inl hrf)] at h
              exact absurd (by simpa using h) hnos
        · rw [evalPhase_noAlert cfg w st em ops vs hw (not_lt.1 hthr)] at h
          exact absurd (by simpa using h) hnos

/-- Claim C7: a run that observes a record with a strictly future expiry
returns the snoozed response carrying that expiry, performs only the store
read, sends nothing, changes nothing, and never invokes the weather API. -/
theorem c7_snoozed_early_exit (cfg : Config) (w : World) (e : Nat)
    (hredis : cfg.redisConfigured = true)
    (hget : w.behavior.getOk = true)
    (hexp : w.store.expiry = some e)
    (hfut : w.now < e) :
    handler cfg w =
      ⟨RunResult.snoozedSkip e, w.store, [], [StoreOp.get], false⟩ := by
  unfold handler
  rw [snoozePhase_snoozed cfg w e hredis hget hexp hfut]

/-- Witness for C7: a record expiring 100000 seconds in the future skips. -/
theorem c7_snoozed_early_exit_witness :
    handler cfgSnoozeOn worldSnoozed =
      ⟨RunResult.snoozedSkip 101000, worldSnoozed.store, [], [StoreOp.get], false⟩ :=
  c7_snoozed_early_exit cfgSnoozeOn worldSnoozed 101000 rfl rfl rfl (by decide)

/-- Claim C8: when the store read fails, `getSnoozeState` reports the absent
state instead of raising, and the run proceeds to the weather evaluation
with the same response and emails as a run on an absent record. -/
theorem c8_store_unreachable_fails_open (cfg : Config) (w : World)
    (hredis : cfg.redisConfigured = true)
    (hget : w.behavior.getOk = false) :
    getSnoozeState w.behavior.getOk w.store w.now = ⟨false, none⟩ ∧
    (handler cfg w).result = (handler cfg (failOpenWorld w)).result ∧
    (handler cfg w).emails = (handler cfg (failOpenWorld w)).emails ∧
    (handler cfg w).weatherFetched = true := by
  have hg : getSnoozeState w.behavior.getOk w.store w.now = ⟨false, none⟩ := by
    unfold getSnoozeState
    simp [hget]
  have h1 : snoozePhase cfg w = ⟨PhaseResult.proceed, w.store, [], [StoreOp.get]⟩ :=
    snoozePhase_getFail cfg w hredis hget
  have h2 : snoozePhase cfg (failOpenWorld w) =
      ⟨PhaseResult.proceed, storeEmpty, [], [StoreOp.get]⟩ :=
    snoozePhase_absent cfg (failOpenWorld w) hredis rfl
  unfold handler
  rw [h1, h2]
  dsimp only
  have hc := evalPhase_congr cfg w (failOpenWorld w)
    w.store storeEmpty [] [StoreOp.get] rfl rfl
  exact ⟨hg, hc.1, hc.2.1, evalPhase_weatherFetched cfg w w.store [] [StoreOp.get]⟩

/-- Witness for C8 at a concrete unreachable-store run. -/
theorem c8_store_unreachable_fails_open_witness :
    getSnoozeState worldGetFail.behavior.getOk worldGetFail.store worldGetFail.now =
      ⟨false, none⟩ ∧
    (handler cfgSnoozeOn worldGetFail).result =
      (handler cfgSnoozeOn (failOpenWorld worldGetFail)).result ∧
    (handler cfgSnoozeOn worldGetFail).emails =
      (handler cfgSnoozeOn (failOpenWorld worldGetFail)).emails ∧
    (handler cfgSnoozeOn worldGetFail).weatherFetched = true :=
  c8_store_unreachable_fails_open cfgSnoozeOn worldGetFail rfl rfl

/-- Claim C9: if the alert send fails, the run reports the delivery failure
as its outcome, leaves the record unchanged, delivers nothing and never
attempts the snooze write; in general the snooze write is attempted only
when the send succeeded, Redis is configured and a tier matched. -/
theorem c9_alert_send_failure_no_snooze (cfg : Config) (w : World) (vs : List Rat)
    (hredis : cfg.redisConfigured = true)
    (hexp : w.store.expiry = none)
    (hw : w.weather = some vs)
    (hthr : cfg.threshold < mmToInches vs.sum)
    (hsend : w.alertSendOk = false) :
    (handler cfg w).result = RunResult.alertSendFailed ∧
    (handler cfg w).store = w.store ∧
    (handler cfg w).emails = [] ∧
    StoreOp.set ∉ (handler cfg w).ops ∧
    (∀ (cfg2 : Config) (w2 : World), StoreOp.set ∈ (handler cfg2 w2).ops →
      w2.alertSendOk = true ∧ cfg2.redisConfigured = true ∧
      ∃ vs2, w2.weather = some vs2 ∧ cfg2.threshold < mmToInches vs2.sum ∧
        selectTier cfg2.snooze (mmToInches vs2.sum) ≠ none) := by
  have hh : handler cfg w = evalPhase cfg w w.store [] [StoreOp.get] := by
    unfold handler
    rw [snoozePhase_absent cfg w hredis hexp]
  rw [hh, evalPhase_alertSendFail cfg w w.store [] [StoreOp.get] vs hw hthr hsend]
  exact ⟨rfl, rfl, rfl, by simp, fun cfg2 w2 h => handler_set_requires cfg2 w2 h⟩

/-- Witness for C9 at a concrete failed-alert run. -/
theorem c9_alert_send_failure_no_snooze_witness :
    (handler cfgSnoozeOn worldAlertFail).result = RunResult.alertSendFailed ∧
    (handler cfgSnoozeOn worldAlertFail).store = worldAlertFail.store ∧
    (handler cfgSnoozeOn worldAlertFail).emails = [] ∧
    StoreOp.set ∉ (handler cfgSnoozeOn worldAlertFail).ops ∧
    (∀ (cfg2 : Config) (w2 : World), StoreOp.set ∈ (handler cfg2 w2).ops →
      w2.alertSendOk = true ∧ cfg2.redisConfigured = true ∧
      ∃ vs2, w2.weather = some vs2 ∧ cfg2.threshold < mmToInches vs2.sum ∧
        selectTier cfg2.snooze (mmToInches vs2.sum) ≠ none) :=
  c9_alert_send_failure_no_snooze cfgSnoozeOn worldAlertFail [889 / 50]
    rfl rfl rfl (by norm_num [mmToInches, cfgSnoozeOn]) rfl

/-- Claim C10: without a Redis URL the snooze-enabled handler touches no
snooze state and produces the same response fields and alert email as the
plain handler. -/
theorem c10_no_redis_refines_plain (cfg : Config) (w : World)
    (hredis : cfg.redisConfigured = false) :
    (handler cfg w).ops = [] ∧
    (handler cfg w).store = w.store ∧
    eraseSnoozeFields (handler cfg w).result =
      (checkPrecipitationHandler cfg.threshold w.weather w.alertSendOk).1 ∧
    (handler cfg w).emails =
      (checkPrecipitationHandler cfg.threshold w.weather w.alertSendOk).2 := by
  have hh : handler cfg w = evalPhase cfg w w.store [] [] := by
    unfold handler
    rw [snoozePhase_noRedis cfg w hredis]
  rw [hh]
  unfold checkPrecipitationHandler
  cases hw : w.weather with
  | none =>
    rw [evalPhase_weatherNone cfg w w.store [] [] hw]
    exact ⟨rfl, rfl, rfl, rfl⟩
  | some vs =>
    by_cases hthr : cfg.threshold < mmToInches vs.sum
    · cases hsend : w.alertSendOk with
      | false =>
        rw [evalPhase_alertSendFail cfg w w.store [] [] vs hw hthr hsend]
        simp [hthr, eraseSnoozeFields]
      | true =>
        rw [evalPhase_alertNoTier cfg w w.store [] [] vs hw hthr hsend (Or.inl hredis)]
        simp [hthr, eraseSnoozeFields]
    · rw [evalPhase_noAlert cfg w w.store [] [] vs hw (not_lt.1 hthr)]
      simp [hthr, eraseSnoozeFields]

/-- Witness for C10 at a concrete run without Redis. -/
theorem c10_no_redis_refines_plain_witness :
    (handler cfgSnoozeOff worldLowRain).ops = [] ∧
    (handler cfgSnoozeOff worldLowRain).store = worldLowRain.store ∧
    eraseSnoozeFields (handler cfgSnoozeOff worldLowRain).result =
      (checkPrecipitationHandler cfgSnoozeOff.threshold worldLowRain.weather
        worldLowRain.alertSendOk).1 ∧
    (handler cfgSnoozeOff worldLowRain).emails =
      (checkPrecipitationHandler cfgSnoozeOff.threshold worldLowRain.weather
        worldLowRain.alertSendOk).2 :=
  c10_no_redis_refines_plain cfgSnoozeOff worldLowRain rfl
